import Mathlib

/-!
Shallow embedding of the ActiveLearn Hub pure functions (CBL field
validators, gamification arithmetic, nudge lookup, project-progress
computation) together with theorems settling the specification claims
about them.

Modelling conventions:
* XP amounts are integers (`ℤ`); the tests exercise the functions on
  integer XP only.
* JavaScript floating-point division inside `levelProgressPercentage`
  and `calculateProjectProgress` is modelled by exact rational
  arithmetic.  For the integer inputs at stake the double-precision
  result never sits close enough to a half-integer for the rounding to
  differ from the exact rational rounding.
* `Math.round` is modelled by `jsRound x = ⌊x + 1/2⌋` (round to nearest,
  halves toward positive infinity), which is `Math.round`'s behaviour on
  all finite numbers.
* A JavaScript `null`/`undefined` argument or field is an `Option` that
  is `none`; JavaScript code that would throw a `TypeError` (field
  access on `null`/`undefined`) is modelled in `Except`, with
  `Except.error ()` standing for the thrown exception.
* `Math.random()` is modelled by an explicit parameter `rand : ℚ` with
  `0 ≤ rand < 1`.
-/

namespace ActiveLearn

/-- Model of JavaScript `Math.round`: round to nearest, halves toward +∞. -/
def jsRound (x : ℚ) : ℤ := ⌊x + 1/2⌋

/-! ## Gamification (gamification test module)

```js
const XP_PER_LEVEL = [0, 100, 250, 500, 1000];
export const calculateUserLevel = (totalXP) => {
  for (let i = XP_PER_LEVEL.length - 1; i >= 0; i--) {
    if (totalXP >= XP_PER_LEVEL[i]) return i + 1;
  }
  return 1;
};
```
-/

/-- XP thresholds for levels 1..5 (`XP_PER_LEVEL`). -/
def XP_PER_LEVEL : List ℤ := [0, 100, 250, 500, 1000]

/-- The descending scan inside `calculateUserLevel`: `levelScan xp (i+1)`
performs the loop iteration for index `i` (`if (totalXP >= XP_PER_LEVEL[i])
return i + 1`) and recurses downward; falling out of the loop returns 1. -/
def levelScan (totalXP : ℤ) : ℕ → ℕ
  | 0 => 1
  | i + 1 => if XP_PER_LEVEL.getD i 0 ≤ totalXP then i + 1 else levelScan totalXP i

/-- `calculateUserLevel(totalXP)` from the gamification module. -/
def calculateUserLevel (totalXP : ℤ) : ℕ :=
  levelScan totalXP XP_PER_LEVEL.length

/-- `xpToNextLevel(totalXP)` from the gamification module. -/
def xpToNextLevel (totalXP : ℤ) : ℤ :=
  let currentLevel := calculateUserLevel totalXP
  if 5 ≤ currentLevel then 0
  else XP_PER_LEVEL.getD currentLevel 0 - totalXP

/-- `levelProgressPercentage(totalXP)` from the gamification module. -/
def levelProgressPercentage (totalXP : ℤ) : ℤ :=
  let currentLevel := calculateUserLevel totalXP
  if 5 ≤ currentLevel then 100
  else
    let currentLevelXP := XP_PER_LEVEL.getD (currentLevel - 1) 0
    let nextLevelXP := XP_PER_LEVEL.getD currentLevel 0
    let xpInCurrentLevel := totalXP - currentLevelXP
    let xpNeededForLevel := nextLevelXP - currentLevelXP
    jsRound (((xpInCurrentLevel : ℚ) / (xpNeededForLevel : ℚ)) * 100)

/-! ## CBL field validators (CBL validators test module)

JavaScript strings are modelled through their character list `s.data`
(`String.length` and `String.trim` in JavaScript act on the character
sequence; all characters appearing here are single UTF-16 units, so the
JavaScript `.length` is the number of characters). -/

/-- Model of JavaScript `String.prototype.trim`: drop whitespace from
both ends of the character sequence. -/
def trimList (cs : List Char) : List Char :=
  ((cs.dropWhile Char.isWhitespace).reverse.dropWhile Char.isWhitespace).reverse

/-- `isValidBigIdea(bigIdea)`: `!bigIdea` rejects `null`, `undefined` and
the empty string; otherwise the trimmed length must be at least 10. -/
def isValidBigIdea : Option String → Bool
  | none => false
  | some s => if s.data.isEmpty then false else decide (10 ≤ (trimList s.data).length)

/-- `isValidEssentialQuestion(question)`: trimmed length at least 10 and
the trimmed text contains a question mark. -/
def isValidEssentialQuestion : Option String → Bool
  | none => false
  | some s =>
    if s.data.isEmpty then false
    else decide (10 ≤ (trimList s.data).length) && (trimList s.data).contains '?'

/-- `isValidChallenge(challenge)`: trimmed length at least 15. -/
def isValidChallenge : Option String → Bool
  | none => false
  | some s => if s.data.isEmpty then false else decide (15 ≤ (trimList s.data).length)

/-! ## URL validation (resource validators test module) -/

/-- Characters allowed after the first character of a URL scheme. -/
def isSchemeChar (c : Char) : Bool :=
  c.isAlpha || c.isDigit || c = '+' || c = '-' || c = '.'

/-- Splits `scheme ":" rest`, accumulating the scheme (reversed) in `acc`;
fails when no colon is reached, the scheme is empty, or a non-scheme
character appears before the colon. -/
def schemeSplit : List Char → List Char → Option (List Char × List Char)
  | [], _ => none
  | c :: rest, acc =>
    if c = ':' then
      if acc.isEmpty then none else some (acc.reverse, rest)
    else if isSchemeChar c then schemeSplit rest (c :: acc)
    else none

/-- A scheme is a letter followed by letters, digits, `+`, `-` or `.`. -/
def validScheme (cs : List Char) : Bool :=
  match cs with
  | [] => false
  | c :: rest => c.isAlpha && rest.all isSchemeChar

/-- Characters terminating the host component of a URL. -/
def hostDelim (c : Char) : Bool :=
  c = '/' || c = '?' || c = '#' || c = ':'

/-- Modelled from the spec: the platform URL constructor `new URL(url)`
used by `isValidURL` is not part of this repository; per the spec it
succeeds exactly on well-formed URLs with both a scheme and a host
(construction must fail on malformed strings such as those missing a
scheme).  We model it as: after trimming, the string is
`scheme "://" host ...` with a valid nonempty scheme and a nonempty
host component. -/
def parsesAsURL (s : String) : Bool :=
  match schemeSplit (trimList s.data) [] with
  | none => false
  | some (scheme, rest) =>
    validScheme scheme &&
      match rest with
      | '/' :: '/' :: hostRest =>
        !(hostRest.takeWhile (fun c => !hostDelim c)).isEmpty
      | _ => false

/-- `isValidURL(url)`: `!url` rejects `null`, `undefined` and the empty
string; a whitespace-only string is also rejected; otherwise `new URL`
decides (`try { new URL(url); return true } catch { return false }`). -/
def isValidURL : Option String → Bool
  | none => false
  | some url =>
    if url.data.isEmpty || decide ((trimList url.data).length = 0) then false
    else parsesAsURL url

/-! ## Resource and activity validators (resource validators test module) -/

inductive ResourceType
  | article
  | video
  | book
  | website
  | other

inductive Credibility
  | high
  | medium
  | low

inductive ActivityStatus
  | notStarted
  | inProgress
  | completedStatus

/-- `Partial<Resource>`: every field may be `undefined`. -/
structure PartialResource where
  title : Option String
  url : Option String
  type : Option ResourceType
  credibility : Option Credibility

/-- `Partial<Activity>`: every field may be `undefined`. -/
structure PartialActivity where
  title : Option String
  description : Option String
  status : Option ActivityStatus

/-- The body of `isValidResource` once `resource` is a real record:
`!resource.title` rejects a missing or empty title, then the trimmed
title length, the URL, and presence of `type` and `credibility` are
checked, in the source's short-circuit order. -/
def isValidResourceChecks (r : PartialResource) : Bool :=
  match r.title with
  | none => false
  | some t =>
    if t.data.isEmpty || decide ((trimList t.data).length < 3) then false
    else
      match r.url with
      | none => false
      | some u =>
        if u.data.isEmpty || !(isValidURL (some u)) then false
        else if r.type.isNone then false
        else if r.credibility.isNone then false
        else true

/-- `isValidResource(resource)`: accessing `resource.title` when
`resource` itself is `null`/`undefined` throws a `TypeError`, modelled
as `Except.error ()`. -/
def isValidResource : Option PartialResource → Except Unit Bool
  | none => Except.error ()
  | some r => Except.ok (isValidResourceChecks r)

/-- The body of `isValidActivity` once `activity` is a real record. -/
def isValidActivityChecks (a : PartialActivity) : Bool :=
  match a.title with
  | none => false
  | some t =>
    if t.data.isEmpty || decide ((trimList t.data).length < 3) then false
    else
      match a.description with
      | none => false
      | some d =>
        if d.data.isEmpty || decide ((trimList d.data).length < 10) then false
        else !a.status.isNone

/-- `isValidActivity(activity)`: accessing `activity.title` when
`activity` itself is `null`/`undefined` throws a `TypeError`. -/
def isValidActivity : Option PartialActivity → Except Unit Bool
  | none => Except.error ()
  | some a => Except.ok (isValidActivityChecks a)

/-! ## Nudge lookup (nudge system test module) -/

/-- `NUDGES_DATABASE`: a JavaScript record lookup, `none` for a key that
is not in the table (JavaScript `undefined`). -/
def NUDGES_DATABASE (category : String) : Option (List String) :=
  if category = "big_idea" then
    some ["Pense em um tema amplo que conecta diferentes áreas do conhecimento",
          "Qual conceito fundamental você quer explorar?",
          "Considere questões relevantes para sua comunidade"]
  else if category = "essential_question" then
    some ["Formule uma pergunta aberta que não tem resposta única",
          "A pergunta deve provocar pensamento crítico",
          "Evite perguntas que possam ser respondidas com sim ou não"]
  else if category = "challenge" then
    some ["Descreva uma ação concreta que os alunos devem realizar",
          "O desafio deve ser específico e mensurável",
          "Conecte o desafio com situações reais"]
  else if category = "guiding_questions" then
    some ["Decomponha o problema em perguntas menores",
          "Cada pergunta deve levar a uma investigação específica",
          "Garanta que as perguntas sejam pesquisáveis"]
  else if category = "resources" then
    some ["Busque fontes acadêmicas e confiáveis",
          "Diversifique os tipos de recursos (artigos, vídeos, livros)",
          "Avalie criticamente a credibilidade de cada fonte"]
  else if category = "solution" then
    some ["Descreva uma solução viável e criativa",
          "Considere recursos disponíveis e restrições",
          "Pense em como a solução impacta os stakeholders"]
  else if category = "implementation" then
    some ["Divida a implementação em etapas claras",
          "Defina responsáveis e prazos realistas",
          "Considere riscos e planos de contingência"]
  else none

/-- `getRandomNudge(category)` with `Math.random()` modelled by the
parameter `rand`: the selected index is `Math.floor(rand * length)` and
the returned element is `nudges[index]` (`none` models both the explicit
`null` return and an out-of-range `undefined`). -/
def getRandomNudge (rand : ℚ) (category : String) : Option String :=
  match NUDGES_DATABASE category with
  | none => none
  | some nudges =>
    if nudges.length = 0 then none
    else nudges.get? (⌊rand * (nudges.length : ℚ)⌋).toNat

/-- `getNudgesForCategory(category)`: `NUDGES_DATABASE[category] || []`. -/
def getNudgesForCategory (category : String) : List String :=
  (NUDGES_DATABASE category).getD []

/-! ## Project progress (project progress test module) -/

inductive ProjectPhase
  | engage
  | investigate
  | act

/-- The `ProjectProgress` record. -/
structure ProjectProgress where
  phase : ProjectPhase
  engageComplete : Bool
  investigateComplete : Bool
  actComplete : Bool

/-- `countCompletedPhases(project)`. -/
def countCompletedPhases (project : ProjectProgress) : ℕ :=
  (if project.engageComplete then 1 else 0) +
    (if project.investigateComplete then 1 else 0) +
    (if project.actComplete then 1 else 0)

/-- `calculateProjectProgress(project)`: counts the completed phases
inline (as the source does) and returns `Math.round(count / 3 * 100)`. -/
def calculateProjectProgress (project : ProjectProgress) : ℤ :=
  let completedPhases : ℕ :=
    (if project.engageComplete then 1 else 0) +
      (if project.investigateComplete then 1 else 0) +
      (if project.actComplete then 1 else 0)
  jsRound ((completedPhases : ℚ) / 3 * 100)

/-! ## Helper lemmas -/

lemma calculateUserLevel_eq (xp : ℤ) :
    calculateUserLevel xp =
      if 1000 ≤ xp then 5
      else if 500 ≤ xp then 4
      else if 250 ≤ xp then 3
      else if 100 ≤ xp then 2
      else if 0 ≤ xp then 1
      else 1 := rfl

lemma xpToNextLevel_eq (xp : ℤ) :
    xpToNextLevel xp =
      if 1000 ≤ xp then 0
      else if 500 ≤ xp then 1000 - xp
      else if 250 ≤ xp then 500 - xp
      else if 100 ≤ xp then 250 - xp
      else 100 - xp := by
  unfold xpToNextLevel
  rw [calculateUserLevel_eq]
  split_ifs <;> norm_num [XP_PER_LEVEL]

lemma levelProgressPercentage_eq (xp : ℤ) :
    levelProgressPercentage xp =
      if 1000 ≤ xp then 100
      else if 500 ≤ xp then jsRound (((xp : ℚ) - 500) / 500 * 100)
      else if 250 ≤ xp then jsRound (((xp : ℚ) - 250) / 250 * 100)
      else if 100 ≤ xp then jsRound (((xp : ℚ) - 100) / 150 * 100)
      else jsRound ((xp : ℚ) / 100 * 100) := by
  unfold levelProgressPercentage
  rw [calculateUserLevel_eq]
  split_ifs <;> norm_num [XP_PER_LEVEL, jsRound]

lemma jsRound_bounds (a n : ℤ) (h0 : 0 ≤ a) (h1 : a < n) (hn : 0 < n) :
    0 ≤ jsRound ((a : ℚ) / (n : ℚ) * 100) ∧ jsRound ((a : ℚ) / (n : ℚ) * 100) ≤ 100 := by
  have hnq : (0 : ℚ) < (n : ℚ) := by exact_mod_cast hn
  have hq0 : (0 : ℚ) ≤ (a : ℚ) / (n : ℚ) :=
    div_nonneg (by exact_mod_cast h0) hnq.le
  have hq1 : (a : ℚ) / (n : ℚ) < 1 := (div_lt_one hnq).mpr (by exact_mod_cast h1)
  constructor
  · exact Int.le_floor.mpr (by push_cast; nlinarith)
  · have hlt : jsRound ((a : ℚ) / (n : ℚ) * 100) < 101 :=
      Int.floor_lt.mpr (by push_cast; nlinarith)
    omega

/-! ## Claim theorems -/

/-- Claim C1: `calculateUserLevel(totalXP)` returns the highest 1-based level
index `i` such that `totalXP ≥ XP_PER_LEVEL[i-1]` (thresholds
`[0, 100, 250, 500, 1000]`), returns 1 for negative or zero XP, and the
result is always between 1 and 5 inclusive. -/
theorem calculateUserLevel_spec (xp : ℤ) :
    1 ≤ calculateUserLevel xp ∧ calculateUserLevel xp ≤ 5 ∧
      (xp ≤ 0 → calculateUserLevel xp = 1) ∧
      (0 ≤ xp → ∀ i : ℕ, 1 ≤ i → i ≤ 5 →
        (XP_PER_LEVEL.getD (i - 1) 0 ≤ xp ↔ i ≤ calculateUserLevel xp)) := by
  rw [calculateUserLevel_eq]
  refine ⟨by split_ifs <;> omega, by split_ifs <;> omega, by split_ifs <;> omega, ?_⟩
  intro h0 i h1 h2
  interval_cases i <;> simp [XP_PER_LEVEL] <;> split_ifs <;> omega

/-- Witness for C1 at `totalXP = 250`: level 3 is reached exactly when
the threshold 250 is. -/
theorem calculateUserLevel_spec_witness :
    XP_PER_LEVEL.getD 2 0 ≤ (250 : ℤ) ↔ 3 ≤ calculateUserLevel 250 :=
  (calculateUserLevel_spec 250).2.2.2 (by decide) 3 (by decide) (by decide)

/-- Claim C6: `calculateUserLevel` is monotonic non-decreasing in its XP
argument. -/
theorem calculateUserLevel_mono (x y : ℤ) (h : x ≤ y) :
    calculateUserLevel x ≤ calculateUserLevel y := by
  rw [calculateUserLevel_eq, calculateUserLevel_eq]
  split_ifs <;> omega

/-- Witness for C6 at `x = 99`, `y = 100`. -/
theorem calculateUserLevel_mono_witness :
    calculateUserLevel 99 ≤ calculateUserLevel 100 :=
  calculateUserLevel_mono 99 100 (by decide)

/-- Claim C5: `xpToNextLevel(totalXP)` returns 0 at level 5 and otherwise the
next level's threshold (`XP_PER_LEVEL[currentLevel]`) minus `totalXP`,
spelled out per level; in particular `xpToNextLevel(0) = 100` and
`xpToNextLevel(1000) = 0`. -/
theorem xpToNextLevel_spec (xp : ℤ) :
    (calculateUserLevel xp = 1 → xpToNextLevel xp = 100 - xp) ∧
      (calculateUserLevel xp = 2 → xpToNextLevel xp = 250 - xp) ∧
      (calculateUserLevel xp = 3 → xpToNextLevel xp = 500 - xp) ∧
      (calculateUserLevel xp = 4 → xpToNextLevel xp = 1000 - xp) ∧
      (5 ≤ calculateUserLevel xp → xpToNextLevel xp = 0) ∧
      (calculateUserLevel xp < 5 →
        xpToNextLevel xp = XP_PER_LEVEL.getD (calculateUserLevel xp) 0 - xp) ∧
      xpToNextLevel 0 = 100 ∧ xpToNextLevel 1000 = 0 := by
  rw [calculateUserLevel_eq, xpToNextLevel_eq]
  refine ⟨?_, ?_, ?_, ?_, ?_, ?_, by decide, by decide⟩ <;>
    · split_ifs <;> simp [XP_PER_LEVEL]

/-- Witness for C5 at `totalXP = 0` (level 1). -/
theorem xpToNextLevel_spec_witness : xpToNextLevel 0 = 100 - 0 :=
  (xpToNextLevel_spec 0).1 (by decide)

/-- Claim C9: below the maximum level, `xpToNextLevel` is strictly positive,
including for negative XP. -/
theorem xpToNextLevel_pos (xp : ℤ) (h : calculateUserLevel xp ≤ 4) :
    0 < xpToNextLevel xp := by
  rw [calculateUserLevel_eq] at h
  rw [xpToNextLevel_eq]
  split_ifs at * <;> omega

/-- Witness for C9 at the negative input `totalXP = -50`. -/
theorem xpToNextLevel_pos_witness :
    calculateUserLevel (-50) ≤ 4 ∧ 0 < xpToNextLevel (-50) :=
  ⟨by decide, xpToNextLevel_pos (-50) (by decide)⟩

/-- Claim C4: `levelProgressPercentage(totalXP)` returns 100 at the maximum
level, and otherwise `(totalXP - currentLevelFloor) /
(nextLevelFloor - currentLevelFloor) * 100` rounded to the nearest
integer with halves rounded up (`jsRound` is exactly that rounding);
in particular the values at 50, 175 and 1000 are 50, 50 and 100. -/
theorem levelProgressPercentage_spec (xp : ℤ) :
    (calculateUserLevel xp = 5 → levelProgressPercentage xp = 100) ∧
      (calculateUserLevel xp < 5 →
        levelProgressPercentage xp =
          jsRound ((((xp : ℚ) - (XP_PER_LEVEL.getD (calculateUserLevel xp - 1) 0 : ℚ)) /
              ((XP_PER_LEVEL.getD (calculateUserLevel xp) 0 : ℚ) -
                (XP_PER_LEVEL.getD (calculateUserLevel xp - 1) 0 : ℚ))) * 100)) ∧
      (∀ x : ℚ, x - 1/2 < (jsRound x : ℚ) ∧ (jsRound x : ℚ) ≤ x + 1/2) ∧
      levelProgressPercentage 50 = 50 ∧ levelProgressPercentage 175 = 50 ∧
      levelProgressPercentage 1000 = 100 := by
  refine ⟨?_, ?_, ?_, ?_, ?_, ?_⟩
  · intro h
    rw [calculateUserLevel_eq] at h
    rw [levelProgressPercentage_eq]
    split_ifs at * <;> omega
  · intro h
    rw [calculateUserLevel_eq] at h ⊢
    rw [levelProgressPercentage_eq]
    split_ifs at h ⊢ <;> first | omega | norm_num [XP_PER_LEVEL]
  · intro x
    constructor
    · have hx := Int.lt_floor_add_one (x + 1/2)
      simp only [jsRound]
      push_cast at hx ⊢
      linarith
    · have hx := Int.floor_le (x + 1/2)
      simp only [jsRound]
      linarith
  · norm_num [levelProgressPercentage_eq, jsRound, Int.floor_eq_iff]
  · norm_num [levelProgressPercentage_eq, jsRound, Int.floor_eq_iff]
  · norm_num [levelProgressPercentage_eq, jsRound, Int.floor_eq_iff]

/-- Witness for C4 at `totalXP = 1000` (level 5). -/
theorem levelProgressPercentage_spec_witness :
    calculateUserLevel 1000 = 5 ∧ levelProgressPercentage 1000 = 100 :=
  ⟨by decide, (levelProgressPercentage_spec 1000).1 (by decide)⟩

/-- Claim C10 counterexample: at `totalXP = 499` the level is 3, below the
maximum, yet the progress percentage is already 100
(`249 / 250 * 100 = 99.6` rounds up to 100). -/
theorem levelProgress_100_below_max :
    calculateUserLevel 499 ≠ 5 ∧ levelProgressPercentage 499 = 100 :=
  ⟨by decide, by norm_num [levelProgressPercentage_eq, jsRound, Int.floor_eq_iff]⟩

/-- Claim C10 (amended): for `totalXP ≥ 0` the progress percentage is between
0 and 100 inclusive, and is 100 at the maximum level 5; rounding can
also produce 100 just below a threshold (see the counterexample), so
100 is not exclusive to the maximum level. -/
theorem levelProgress_bounds (xp : ℤ) (h : 0 ≤ xp) :
    0 ≤ levelProgressPercentage xp ∧ levelProgressPercentage xp ≤ 100 ∧
      (calculateUserLevel xp = 5 → levelProgressPercentage xp = 100) := by
  rw [calculateUserLevel_eq, levelProgressPercentage_eq]
  split_ifs with h1 h2 h3 h4
  · exact ⟨by norm_num, by norm_num, fun _ => rfl⟩
  · have hb := jsRound_bounds (xp - 500) 500 (by omega) (by omega) (by norm_num)
    push_cast at hb
    exact ⟨hb.1, hb.2, fun hc => absurd hc (by decide)⟩
  · have hb := jsRound_bounds (xp - 250) 250 (by omega) (by omega) (by norm_num)
    push_cast at hb
    exact ⟨hb.1, hb.2, fun hc => absurd hc (by decide)⟩
  · have hb := jsRound_bounds (xp - 100) 150 (by omega) (by omega) (by norm_num)
    push_cast at hb
    exact ⟨hb.1, hb.2, fun hc => absurd hc (by decide)⟩
  · have hb := jsRound_bounds xp 100 (by omega) (by omega) (by norm_num)
    push_cast at hb
    exact ⟨hb.1, hb.2, fun hc => absurd hc (by decide)⟩

/-- Witness for C10 (amended) at `totalXP = 1000`. -/
theorem levelProgress_bounds_witness :
    0 ≤ levelProgressPercentage 1000 ∧ levelProgressPercentage 1000 ≤ 100 ∧
      (calculateUserLevel 1000 = 5 → levelProgressPercentage 1000 = 100) :=
  levelProgress_bounds 1000 (by decide)

/-- Claim C2 counterexample: `isValidResource(null)` and `isValidActivity(null)`
do not return `false` — accessing `.title` on `null`/`undefined` throws a
`TypeError` (modelled by `Except.error ()`). -/
theorem validators_null_counterexample :
    isValidResource none = Except.error () ∧ isValidActivity none = Except.error () :=
  ⟨rfl, rfl⟩

/-- Claim C2 (amended): the string validators (`isValidBigIdea`,
`isValidEssentialQuestion`, `isValidChallenge`, `isValidURL`) return
`false` on `null`/`undefined` without raising; `isValidResource` and
`isValidActivity` return `false` without raising when a field such as
`title` is `null`/`undefined`/missing, but raise a `TypeError` when the
record itself is `null`/`undefined`. -/
theorem validators_null_amended :
    isValidBigIdea none = false ∧ isValidEssentialQuestion none = false ∧
      isValidChallenge none = false ∧ isValidURL none = false ∧
      (∀ r : PartialResource, r.title = none → isValidResource (some r) = Except.ok false) ∧
      (∀ a : PartialActivity, a.title = none → isValidActivity (some a) = Except.ok false) ∧
      isValidResource none = Except.error () ∧
      isValidActivity none = Except.error () := by
  refine ⟨rfl, rfl, rfl, rfl, ?_, ?_, rfl, rfl⟩
  · intro r h
    simp [isValidResource, isValidResourceChecks, h]
  · intro a h
    simp [isValidActivity, isValidActivityChecks, h]

/-- Witness for C2 (amended): a resource record with every field absent
validates to `false` without raising. -/
theorem validators_null_amended_witness :
    isValidResource (some ⟨none, none, none, none⟩) = Except.ok false :=
  validators_null_amended.2.2.2.2.1 ⟨none, none, none, none⟩ rfl

/-- Claim C3: `isValidURL(url)` is true iff `url` is non-empty after trimming
and parses as a well-formed URL with a scheme and a host (the modelled
`new URL` constructor), and it fails on the spec's malformed examples
while accepting `https://example.com`. -/
theorem isValidURL_spec (url : String) :
    (isValidURL (some url) = true ↔
      trimList url.data ≠ [] ∧ parsesAsURL url = true) ∧
      isValidURL (some "not a url") = false ∧
      isValidURL (some "www.example") = false ∧
      isValidURL (some "https://example.com") = true ∧
      isValidURL (some "") = false := by
  refine ⟨?_, by decide, by decide, by decide, by decide⟩
  constructor
  · intro hv
    simp only [isValidURL] at hv
    split_ifs at hv with hc
    simp only [Bool.or_eq_true, decide_eq_true_eq, not_or] at hc
    exact ⟨fun hnil => hc.2 (by rw [hnil]; rfl), hv⟩
  · rintro ⟨h1, h2⟩
    have hlen : ¬((trimList url.data).length = 0) :=
      fun hz => h1 (List.length_eq_zero.mp hz)
    have hdata : url.data.isEmpty = false := by
      rcases hd : url.data with _ | ⟨c, cs⟩
      · rw [hd] at h1
        exact absurd rfl h1
      · rfl
    simp [isValidURL, hdata, hlen, h2]

/-- The full nudge table has three entries for every known category. -/
lemma NUDGES_DATABASE_length (c : String) (l : List String)
    (h : NUDGES_DATABASE c = some l) : l.length = 3 := by
  unfold NUDGES_DATABASE at h
  split_ifs at h <;> injection h with h2 <;> subst h2 <;> rfl

/-- `Math.floor(rand * n)` lands inside a list of positive length `n`
when `0 ≤ rand < 1`. -/
lemma randIdx_lt (rand : ℚ) (h0 : 0 ≤ rand) (h1 : rand < 1) (n : ℕ) (hn : 0 < n) :
    (⌊rand * (n : ℚ)⌋).toNat < n := by
  have hnq : (0 : ℚ) < (n : ℚ) := by exact_mod_cast hn
  have h3 : rand * (n : ℚ) < (n : ℚ) := by nlinarith
  have h4 : ⌊rand * (n : ℚ)⌋ < (n : ℤ) := Int.floor_lt.mpr (by push_cast; exact h3)
  have h5 : 0 ≤ ⌊rand * (n : ℚ)⌋ := Int.floor_nonneg.mpr (by positivity)
  omega

/-- Claim C8: `getNudgesForCategory` returns the category's full list when the
category is in the table and `[]` (never `null`) when unknown; and
`getRandomNudge` returns `null` exactly when the category is unknown or
its list is empty, and otherwise an element of that category's list,
whichever index the random source selects. -/
theorem nudges_spec (category : String) (rand : ℚ) (h0 : 0 ≤ rand) (h1 : rand < 1) :
    (NUDGES_DATABASE category = none → getNudgesForCategory category = []) ∧
      (∀ l, NUDGES_DATABASE category = some l → getNudgesForCategory category = l) ∧
      (getRandomNudge rand category = none ↔
        NUDGES_DATABASE category = none ∨ getNudgesForCategory category = []) ∧
      (∀ s, getRandomNudge rand category = some s →
        s ∈ getNudgesForCategory category) := by
  refine ⟨?_, ?_, ?_, ?_⟩
  · intro h
    simp [getNudgesForCategory, h]
  · intro l h
    simp [getNudgesForCategory, h]
  · rcases hdb : NUDGES_DATABASE category with _ | l
    · simp [getRandomNudge, getNudgesForCategory, hdb]
    · have hlen := NUDGES_DATABASE_length category l hdb
      have hidx := randIdx_lt rand h0 h1 l.length (by omega)
      simp only [getRandomNudge, getNudgesForCategory, hdb, Option.getD_some]
      rw [if_neg (by omega)]
      constructor
      · intro hn
        rw [List.get?_eq_none] at hn
        omega
      · rintro (h | h)
        · exact absurd h (by simp)
        · rw [h] at hlen
          exact absurd hlen (by simp)
  · intro s hs
    rcases hdb : NUDGES_DATABASE category with _ | l
    · simp [getRandomNudge, hdb] at hs
    · have hlen := NUDGES_DATABASE_length category l hdb
      simp only [getRandomNudge, hdb] at hs
      rw [if_neg (by omega)] at hs
      have hm := List.get?_mem hs
      simpa [getNudgesForCategory, hdb] using hm

/-- Witness for C8 at the known category `challenge` with `rand = 1/2`. -/
theorem nudges_spec_witness :
    getNudgesForCategory "challenge" =
      ["Descreva uma ação concreta que os alunos devem realizar",
       "O desafio deve ser específico e mensurável",
       "Conecte o desafio com situações reais"] :=
  (nudges_spec "challenge" (1/2) (by norm_num) (by norm_num)).2.1 _ rfl

/-- Claim C7: `calculateProjectProgress` returns
`round(countCompletedPhases / 3 * 100)`, which is 0, 33, 67 or 100 for
0, 1, 2 or 3 completed phases. -/
theorem calculateProjectProgress_spec (p : ProjectProgress) :
    calculateProjectProgress p = jsRound ((countCompletedPhases p : ℚ) / 3 * 100) ∧
      (countCompletedPhases p = 0 → calculateProjectProgress p = 0) ∧
      (countCompletedPhases p = 1 → calculateProjectProgress p = 33) ∧
      (countCompletedPhases p = 2 → calculateProjectProgress p = 67) ∧
      (countCompletedPhases p = 3 → calculateProjectProgress p = 100) := by
  rcases p with ⟨ph, e, i, a⟩
  cases e <;> cases i <;> cases a <;>
    refine ⟨rfl, ?_, ?_, ?_, ?_⟩ <;> intro h <;>
      norm_num [calculateProjectProgress, countCompletedPhases, jsRound,
        Int.floor_eq_iff] at h ⊢

/-- Witness for C7: exactly one completed phase yields 33. -/
theorem calculateProjectProgress_spec_witness :
    calculateProjectProgress ⟨ProjectPhase.engage, true, false, false⟩ = 33 :=
  (calculateProjectProgress_spec ⟨ProjectPhase.engage, true, false, false⟩).2.2.1
    (by decide)

/-! ## Test vectors from the repository's unit tests -/

example : calculateUserLevel 0 = 1 := by decide
example : calculateUserLevel 50 = 1 := by decide
example : calculateUserLevel 99 = 1 := by decide
example : calculateUserLevel 100 = 2 := by decide
example : calculateUserLevel 249 = 2 := by decide
example : calculateUserLevel 250 = 3 := by decide
example : calculateUserLevel 400 = 3 := by decide
example : calculateUserLevel 500 = 4 := by decide
example : calculateUserLevel 750 = 4 := by decide
example : calculateUserLevel 1000 = 5 := by decide
example : calculateUserLevel 2000 = 5 := by decide
example : xpToNextLevel 0 = 100 := by decide
example : xpToNextLevel 50 = 50 := by decide
example : xpToNextLevel 100 = 150 := by decide
example : xpToNextLevel 250 = 250 := by decide
example : xpToNextLevel 1000 = 0 := by decide
example : xpToNextLevel 2000 = 0 := by decide
example : levelProgressPercentage 0 = 0 := by
  norm_num [levelProgressPercentage_eq, jsRound, Int.floor_eq_iff]
example : levelProgressPercentage 100 = 0 := by
  norm_num [levelProgressPercentage_eq, jsRound, Int.floor_eq_iff]
example : levelProgressPercentage 5000 = 100 := by
  norm_num [levelProgressPercentage_eq]
example : isValidBigIdea (some "") = false := by decide
example : isValidBigIdea (some "Curta") = false := by decide
example : isValidBigIdea (some "Sustentabilidade ambiental nas escolas") = true := by decide
example : isValidEssentialQuestion (some "Esta não é uma pergunta") = false := by decide
example : isValidEssentialQuestion (some "Por quê?") = false := by decide
example : isValidEssentialQuestion (some "Como podemos reduzir o desperdício de alimentos?") = true := by
  decide
example : isValidChallenge (some "Muito curto") = false := by decide
example : isValidChallenge (some "Criar uma solução para reduzir desperdício alimentar") = true := by
  decide
example : isValidURL (some "") = false := by decide
example : isValidURL (some "not a url") = false := by decide
example : isValidURL (some "www.example") = false := by decide
example : isValidURL (some "https://www.example.com") = true := by decide
example : isValidURL (some "http://example.com/path") = true := by decide
example : isValidURL (some "https://scholar.google.com/article") = true := by decide
example : isValidResource (some ⟨some "AB", none, none, none⟩) = Except.ok false := rfl
example : isValidResource (some ⟨some "Título válido", some "invalid url", none, none⟩) =
    Except.ok false := rfl
example : isValidResource (some ⟨some "Artigo sobre Sustentabilidade",
    some "https://example.com/article", some ResourceType.article,
    some Credibility.high⟩) = Except.ok true := rfl
example : isValidResource (some ⟨some "Título", some "https://example.com",
    some ResourceType.article, none⟩) = Except.ok false := rfl
example : isValidActivity (some ⟨some "AB", none, none⟩) = Except.ok false := rfl
example : isValidActivity (some ⟨some "Pesquisa de campo",
    some "Realizar entrevistas com alunos sobre desperdício alimentar",
    some ActivityStatus.notStarted⟩) = Except.ok true := rfl
example : getNudgesForCategory "invalid" = [] := by decide
example : getRandomNudge (1/2) "big_idea" =
    some "Qual conceito fundamental você quer explorar?" := by
  norm_num [getRandomNudge, NUDGES_DATABASE, Int.floor_eq_iff]
example : calculateProjectProgress ⟨ProjectPhase.act, true, true, true⟩ = 100 := by
  norm_num [calculateProjectProgress, jsRound, Int.floor_eq_iff]
example : calculateProjectProgress ⟨ProjectPhase.act, true, true, false⟩ = 67 := by
  norm_num [calculateProjectProgress, jsRound, Int.floor_eq_iff]
example : calculateProjectProgress ⟨ProjectPhase.engage, false, false, false⟩ = 0 := by
  norm_num [calculateProjectProgress, jsRound, Int.floor_eq_iff]

end ActiveLearn
